import Mathlib

/- Shallow embedding of the SharePointDownloader repository.

   Source: src/sharepoint_connector.py (the raising variant, adopted by the
   specification as canonical) and src/spc_connector.py (a drifted duplicate
   whose except blocks print and fall through instead of raising).

   Modelling conventions:
   - Python exceptions are values of PyExc (class name plus message); a method
     body that can raise is an Except PyExc computation.
   - Every except block in sharepoint_connector.py raises
     RuntimeError with the fixed message prefix; wrapExc models one layer of
     that wrapping.
   - An unparseable listing response (transport failure or a payload without a
     value array) is modelled by RawResponse.bad / a folder whose listingOk
     flag is false; the primitive exception raised there is modelled as the
     KeyError for the missing value key.
   - Python truthiness of the optional file id (if file_id:) is pyTruthy:
     both None and the empty string are falsy.
   - A Python f-string renders None as the literal string None (pyStr). -/

namespace SPD

/-- A Python exception value: the exception class name and its message. -/
structure PyExc where
  excType : String
  msg : String
deriving DecidableEq, Repr

/-- str(KeyError(k)) renders in Python as the key in single quotes. -/
def keyExc (k : String) : PyExc :=
  ⟨"KeyError", "\x27" ++ k ++ "\x27"⟩

/-- One layer of the uniform except-block wrapping used by every method of
    sharepoint_connector.py: raise RuntimeError with the fixed prefix followed
    by str of the caught exception. -/
def wrapExc (e : PyExc) : PyExc :=
  ⟨"RuntimeError", "Erro ao baixar arquivo: " ++ e.msg⟩

/-- Python truthiness of an optional string: None and the empty string are
    falsy, every other string is truthy. -/
def pyTruthy : Option String → Bool
  | none => false
  | some s => s != ""

/-- Python f-string rendering of an optional string: None renders as None. -/
def pyStr : Option String → String
  | none => "None"
  | some s => s

/-- Result of a try body as seen by the enclosing except block: an error is
    re-raised with one more uniform wrap, a normal value passes through. -/
def excWrap {α : Type} : Except PyExc α → Except PyExc α
  | .error e => .error (wrapExc e)
  | .ok v => .ok v

/-- Whether an Except value is an error. -/
def isErr {α : Type} : Except PyExc α → Bool
  | .error _ => true
  | .ok _ => false

/-- The exception class of an erroneous result, if any. -/
def excTypeOf {α : Type} : Except PyExc α → Option String
  | .error e => some e.excType
  | .ok _ => none

/-- One entry of a listing payload's value array: the two fields the code
    reads (name and id) plus the folder-facet marker, which get_response_id
    never reads. -/
structure RawEntry where
  name : String
  id : String
  isFolder : Bool
deriving DecidableEq, Repr

/-- A parsed listing payload: a value array of entries. -/
structure DriveListing where
  value : List RawEntry
deriving DecidableEq, Repr

/-- A raw listing response: either it parses into a payload carrying a value
    array, or touching it raises (unparseable content / missing key). -/
inductive RawResponse where
  | ok (payload : DriveListing)
  | bad
deriving DecidableEq, Repr

/-- The for-loop of SharepointDownloader.get_response_id: return the id of
    the first entry whose name equals folder_match, else None. -/
def response_id_loop (v : List RawEntry) (folder_match : String) : Option String :=
  match v with
  | [] => none
  | item :: rest =>
    if item.name = folder_match then some item.id else response_id_loop rest folder_match

/-- SharepointDownloader.get_response_id (src/sharepoint_connector.py:94-117):
    parse the response content, scan the value array for the first entry whose
    name equals folder_match; on any failure the except block raises the
    uniformly wrapped RuntimeError. -/
def get_response_id (result_json : RawResponse) (folder_match : String) :
    Except PyExc (Option String) :=
  match result_json with
  | .ok payload => .ok (response_id_loop payload.value folder_match)
  | .bad => .error (wrapExc (keyExc "value"))

mutual
/-- One item of a folder-children listing, as find_file inspects it:
    a file carries the direct-download URL key (checked first, so an item with
    the download URL is treated as a file regardless of other keys); a folder
    carries the folder key and its own children listing, whose request either
    succeeds (listingOk) or raises; a plain item carries neither key and is
    skipped. The children sit in the mutually defined ItemList. -/
inductive Item where
  | file (name id : String) : Item
  | folder (name id : String) (listingOk : Bool) (children : ItemList) : Item
  | plain (name id : String) : Item
/-- A children listing as its own inductive, mutual with Item. -/
inductive ItemList where
  | nil : ItemList
  | cons (head : Item) (tail : ItemList) : ItemList
end

/-- Build an ItemList from a plain list, for readable concrete trees. -/
def itemsOf : List Item → ItemList
  | [] => ItemList.nil
  | x :: xs => ItemList.cons x (itemsOf xs)

/-- The for-loop of SharepointDownloader.find_file over one children listing.
    First component: the value returned (or the exception propagating out of
    the loop); second component: the folder ids whose children listings are
    requested while scanning, in request order. The folder case inlines the
    recursive find_file call: its own listing request, the wrap its except
    block applies, and the Python truthiness test if file_id: that decides
    whether the recursive result is propagated or the scan continues. -/
def scanItems (target : String) (items : ItemList) : Except PyExc (Option String) × List String :=
  match items with
  | .nil => (.ok none, [])
  | .cons (Item.file n i) rest =>
    if n = target then (.ok (some i), []) else scanItems target rest
  | .cons (Item.folder _ fid lok cs) rest =>
    let sub : Except PyExc (Option String) × List String :=
      if lok then (excWrap (scanItems target cs).1, fid :: (scanItems target cs).2)
      else (.error (wrapExc (keyExc "value")), [fid])
    match sub.1 with
    | .error e => (.error e, sub.2)
    | .ok r =>
      if pyTruthy r then (.ok r, sub.2)
      else ((scanItems target rest).1, sub.2 ++ (scanItems target rest).2)
  | .cons (Item.plain _ _) rest => scanItems target rest

/-- SharepointDownloader.find_file (src/sharepoint_connector.py:142-176) for a
    folder with id fid: request its children listing (listingOk says whether
    that response is usable), scan the items, and let the except block wrap
    any exception escaping the body. -/
def find_file (target fid : String) (lok : Bool) (cs : ItemList) :
    Except PyExc (Option String) × List String :=
  if lok then (excWrap (scanItems target cs).1, fid :: (scanItems target cs).2)
  else (.error (wrapExc (keyExc "value")), [fid])

/-- The drifted variant: SharepointDownloader.find_file of src/spc_connector.py
    (lines 129-161). Identical loop, but its except block prints the error and
    falls through, so a failed listing request makes that call return None
    instead of raising; the caller then treats it as not-found and continues. -/
def scanItemsSpc (target : String) (items : ItemList) : Option String :=
  match items with
  | .nil => none
  | .cons (Item.file n i) rest =>
    if n = target then some i else scanItemsSpc target rest
  | .cons (Item.folder _ _ lok cs) rest =>
    let sub : Option String := if lok then scanItemsSpc target cs else none
    if pyTruthy sub then sub else scanItemsSpc target rest
  | .cons (Item.plain _ _) rest => scanItemsSpc target rest

/-- spc_connector.py find_file entry point for one folder: a failed listing
    request is swallowed (print plus implicit return None). -/
def find_file_spc (target : String) (lok : Bool) (cs : ItemList) : Option String :=
  if lok then scanItemsSpc target cs else none

/-- Every children-listing request in the tree succeeds. -/
def itemsAllOk (items : ItemList) : Bool :=
  match items with
  | .nil => true
  | .cons (Item.file _ _) rest => itemsAllOk rest
  | .cons (Item.folder _ _ lok cs) rest => lok && (itemsAllOk cs && itemsAllOk rest)
  | .cons (Item.plain _ _) rest => itemsAllOk rest

/-- No file entry anywhere in the tree is named target. -/
def noTargetFile (target : String) (items : ItemList) : Bool :=
  match items with
  | .nil => true
  | .cons (Item.file n _) rest => (n != target) && noTargetFile target rest
  | .cons (Item.folder _ _ _ cs) rest => noTargetFile target cs && noTargetFile target rest
  | .cons (Item.plain _ _) rest => noTargetFile target rest

/-- The folder ids of the tree in depth-first preorder: the order in which an
    exhaustive search requests the children listings, one per folder. -/
def dfsFolderIds (items : ItemList) : List String :=
  match items with
  | .nil => []
  | .cons (Item.file _ _) rest => dfsFolderIds rest
  | .cons (Item.folder _ fid _ cs) rest => fid :: (dfsFolderIds cs ++ dfsFolderIds rest)
  | .cons (Item.plain _ _) rest => dfsFolderIds rest

/-- The result dictionary of ConfidentialClientApplication.
    acquire_token_for_client: the access_token entry is present on success and
    absent on an identity-provider error, whose description is in
    error_description (a field the code never reads). -/
structure MsalResult where
  access_token : Option String
  error_description : String
deriving DecidableEq, Repr

/-- The parsed file-metadata payload requested before downloading: the
    direct-download URL key and the name key, each possibly absent. -/
structure MetaJson where
  downloadUrl : Option String
  name : Option String
deriving DecidableEq, Repr

/-- A raw file-metadata response: parses or raises. -/
inductive RawMeta where
  | ok (m : MetaJson)
  | bad
deriving DecidableEq, Repr

/-- The remote side of one run: the identity-provider reply, the drives
    listing, the root-children listing keyed by the drive id string rendered
    into the URL, the folder tree reachable from a given starting folder id
    string (a listing-success flag and the children), and the file-metadata
    responses keyed by drive id and file id strings. -/
structure Transport where
  msal : MsalResult
  drives : RawResponse
  rootChildren : String → RawResponse
  searchTree : String → Bool × ItemList
  itemMeta : String → String → RawMeta

/-- SharepointDownloader.get_token (src/sharepoint_connector.py:77-92):
    acquire_token_for_client, then index the result with access_token; a
    missing key raises KeyError, which the except block wraps. -/
def get_token (t : Transport) : Except PyExc String :=
  match t.msal.access_token with
  | some tok => .ok ("Bearer " ++ tok)
  | none => .error (wrapExc (keyExc "access_token"))

/-- The listing and download requests a run issues, in order. -/
inductive Request where
  | listDrives
  | listRootChildren (driveId : String)
  | listFolderChildren (folderId : String)
  | fileMeta (driveId fileId : String)
  | saveFile (url localName : String)
deriving DecidableEq, Repr

/-- SharepointDownloader.get_drive_id (src/sharepoint_connector.py:119-140)
    with the requests it issues: get a token, list the drives, resolve the
    entry named Documents, list the root children of the resolved drive id
    (None renders as the literal None in the URL), resolve folder_match, and
    return the pair; any exception is wrapped by the except block. -/
def get_drive_id_run (t : Transport) (folder_match : String) :
    Except PyExc (Option String × Option String) × List Request :=
  match get_token t with
  | .error e => (.error (wrapExc e), [])
  | .ok _headers =>
    match get_response_id t.drives "Documents" with
    | .error e => (.error (wrapExc e), [Request.listDrives])
    | .ok drive_id =>
      match get_response_id (t.rootChildren (pyStr drive_id)) folder_match with
      | .error e =>
        (.error (wrapExc e), [Request.listDrives, Request.listRootChildren (pyStr drive_id)])
      | .ok root_folder_id =>
        (.ok (drive_id, root_folder_id),
         [Request.listDrives, Request.listRootChildren (pyStr drive_id)])

/-- The terminal outcome of download_file when no exception is raised:
    either the file was fetched and written locally under the remote name
    (success message printed), or the not-found message was printed. -/
inductive Outcome where
  | success (localName : String)
  | notFound
deriving DecidableEq, Repr

/-- SharepointDownloader.download_file (src/sharepoint_connector.py:178-204)
    with the requests it issues: get a token, locate drive and root folder,
    run find_file from the resolved root folder id (None renders as the
    literal None); if the returned file id is truthy, request the file
    metadata, index it with the download-URL key, and retrieve the bytes to a
    local file named by the metadata's name key; a falsy file id prints the
    not-found message; any exception is wrapped by the except block. -/
def download_file_run (t : Transport) (target_file_name folder_match : String) :
    Except PyExc Outcome × List Request :=
  match get_token t with
  | .error e => (.error (wrapExc e), [])
  | .ok _headers =>
    match get_drive_id_run t folder_match with
    | (.error e, tr) => (.error (wrapExc e), tr)
    | (.ok ids, tr) =>
      let drive_id := ids.1
      let root_folder_id := ids.2
      let fid := pyStr root_folder_id
      let st := t.searchTree fid
      let fr := find_file target_file_name fid st.1 st.2
      let tr2 := tr ++ fr.2.map Request.listFolderChildren
      match fr.1 with
      | .error e => (.error (wrapExc e), tr2)
      | .ok file_id =>
        match file_id with
        | none => (.ok Outcome.notFound, tr2)
        | some s =>
          if s = "" then (.ok Outcome.notFound, tr2)
          else
            let tr3 := tr2 ++ [Request.fileMeta (pyStr drive_id) s]
            match t.itemMeta (pyStr drive_id) s with
            | .bad => (.error (wrapExc ⟨"JSONDecodeError", "Expecting value"⟩), tr3)
            | .ok m =>
              match m.downloadUrl with
              | none => (.error (wrapExc (keyExc "@microsoft.graph.downloadUrl")), tr3)
              | some u =>
                match m.name with
                | none => (.error (wrapExc (keyExc "name")), tr3)
                | some nm => (.ok (Outcome.success nm), tr3 ++ [Request.saveFile u nm])

/-- Modelled from the spec (4.2 Resource Resolver): the identifier of the
    first entry whose name equals n exactly, in listing order, else NotFound.
    Stated with List.find? to compare against the loop translated from the
    code. -/
def resolve_id_spec (payload : DriveListing) (n : String) : Option String :=
  (payload.value.find? (fun e => e.name == n)).map RawEntry.id

/-- Scenario A tree: the children of the Reports folder; the target file
    sits at top level before the Archive subfolder, which holds a file of the
    same name. -/
def reportsChildren : ItemList :=
  itemsOf
    [Item.file "Q1.xlsx" "idQ1top",
     Item.folder "Archive" "idArchive" true
       (itemsOf [Item.file "Q1.xlsx" "idQ1arch", Item.file "Q2.xlsx" "idQ2"])]

/-- A tree with nested folders and no file named z anywhere. -/
def quietTree : ItemList :=
  itemsOf
    [Item.file "a.txt" "i1",
     Item.folder "B" "fB" true
       (itemsOf [Item.plain "x" "i2", Item.folder "C" "fC" true (itemsOf [])]),
     Item.plain "c" "i3"]

/-- A tree whose first entry is a folder with a failing children listing,
    followed by a sibling file that matches the target. -/
def brokenTree : ItemList :=
  itemsOf [Item.folder "A" "fA" false (itemsOf []), Item.file "t.xlsx" "x9"]

/-- A site whose drive listing has no entry named Documents. -/
def tC3 : Transport :=
  ⟨⟨some "tok", ""⟩,
   RawResponse.ok ⟨[⟨"MyDrive", "d1", true⟩]⟩,
   fun _ => RawResponse.ok ⟨[]⟩,
   fun _ => (true, ItemList.nil),
   fun _ _ => RawMeta.bad⟩

/-- A site where Documents exists but the requested root folder does not, and
    where the children request for the literal folder id None is unparseable
    (the realistic reply of the API to that URL). -/
def tC4 : Transport :=
  ⟨⟨some "tok", ""⟩,
   RawResponse.ok ⟨[⟨"Documents", "d1", true⟩]⟩,
   fun _ => RawResponse.ok ⟨[⟨"Other", "o1", true⟩]⟩,
   fun s => if s = "None" then (false, ItemList.nil) else (true, ItemList.nil),
   fun _ _ => RawMeta.bad⟩

/-- A run whose identity-provider call yields no access token. -/
def t5a : Transport :=
  ⟨⟨none, "invalid client credentials"⟩,
   RawResponse.bad, fun _ => RawResponse.bad, fun _ => (true, ItemList.nil), fun _ _ => RawMeta.bad⟩

/-- A run whose token succeeds but whose drives listing is unparseable. -/
def t5b : Transport :=
  ⟨⟨some "tok", ""⟩,
   RawResponse.bad, fun _ => RawResponse.bad, fun _ => (true, ItemList.nil), fun _ _ => RawMeta.bad⟩

/-- A healthy run in which the searched file simply does not exist. -/
def t5c : Transport :=
  ⟨⟨some "tok", ""⟩,
   RawResponse.ok ⟨[⟨"Documents", "d1", true⟩]⟩,
   fun _ => RawResponse.ok ⟨[⟨"Reports", "r1", true⟩]⟩,
   fun _ => (true, ItemList.nil),
   fun _ _ => RawMeta.bad⟩

/-- An identity-provider rejection with one provider message. -/
def t8a : Transport :=
  ⟨⟨none, "AADSTS7000215: invalid client secret provided"⟩,
   RawResponse.bad, fun _ => RawResponse.bad, fun _ => (true, ItemList.nil), fun _ _ => RawMeta.bad⟩

/-- The same run with a different provider message. -/
def t8b : Transport :=
  ⟨⟨none, "AADSTS700016: application not found in the directory"⟩,
   RawResponse.bad, fun _ => RawResponse.bad, fun _ => (true, ItemList.nil), fun _ _ => RawMeta.bad⟩

/-- A site whose Documents entry and whose root child named like the wanted
    folder are both files (no folder facet). -/
def t10 : Transport :=
  ⟨⟨some "tok", ""⟩,
   RawResponse.ok ⟨[⟨"Documents", "dDoc", false⟩]⟩,
   fun s => if s = "dDoc" then RawResponse.ok ⟨[⟨"root.bin", "rFile", false⟩]⟩ else RawResponse.bad,
   fun _ => (true, ItemList.nil),
   fun _ _ => RawMeta.bad⟩

/-- Replace the folder-facet marker of an entry, keeping name and id. -/
def setKind (b : Bool) (e : RawEntry) : RawEntry := ⟨e.name, e.id, b⟩

theorem excWrap_eq_ok {α : Type} (x : Except PyExc α) (r : α) :
    excWrap x = Except.ok r ↔ x = Except.ok r := by
  cases x <;> simp [excWrap]

theorem response_id_loop_eq_find (v : List RawEntry) (n : String) :
    response_id_loop v n = (v.find? (fun e => e.name == n)).map RawEntry.id := by
  induction v with
  | nil => rfl
  | cons item rest ih =>
    by_cases h : item.name = n
    · simp [response_id_loop, h]
    · simp [response_id_loop, h, ih]

/-- C2: for every well-formed listing payload and every name, get_response_id
    returns, without raising, exactly the identifier of the first entry in
    listing order whose name equals the given name (case-sensitive String
    equality, first match wins on duplicates), and None when no entry
    matches. -/
theorem C2_resolver_first_match (payload : DriveListing) (n : String) :
    get_response_id (RawResponse.ok payload) n = Except.ok (resolve_id_spec payload n) := by
  simp [get_response_id, resolve_id_spec, response_id_loop_eq_find]

/-- C7: on the scenario-A tree with target Q1.xlsx, the search started at the
    Reports folder returns the id of the top-level Q1.xlsx, and the only
    children listing it requests is the Reports folder itself: the Archive
    subfolder is never listed. -/
theorem C7_scenarioA_no_descent :
    find_file "Q1.xlsx" "idReports" true reportsChildren
      = (Except.ok (some "idQ1top"), ["idReports"]) := rfl

/-- C10: name resolution ignores entry kinds: the resolver loop is invariant
    under rewriting every entry's folder marker, and on a site whose Documents
    entry and whose matching root child are both files, get_drive_id returns
    their identifiers as DriveId and RootFolderId. -/
theorem C10_kind_blind_resolution :
    (∀ (v : List RawEntry) (n : String) (b : Bool),
      response_id_loop (v.map (setKind b)) n = response_id_loop v n)
  ∧ (get_drive_id_run t10 "root.bin").1 = Except.ok (some "dDoc", some "rFile") := by
  constructor
  · intro v n b
    induction v with
    | nil => rfl
    | cons item rest ih =>
      by_cases h : item.name = n <;> simp [response_id_loop, setKind, h, ih]
  · rfl

theorem scan_no_match (target : String) :
    ∀ items : ItemList, itemsAllOk items = true → noTargetFile target items = true →
      scanItems target items = (Except.ok none, dfsFolderIds items)
  | .nil, _, _ => rfl
  | .cons (Item.file n _) rest, h1, h2 => by
    simp only [itemsAllOk] at h1
    simp only [noTargetFile, Bool.and_eq_true, bne_iff_ne, ne_eq] at h2
    simp only [scanItems, dfsFolderIds, if_neg h2.1]
    exact scan_no_match target rest h1 h2.2
  | .cons (Item.folder _ fid lok cs) rest, h1, h2 => by
    simp only [itemsAllOk, Bool.and_eq_true] at h1
    simp only [noTargetFile, Bool.and_eq_true] at h2
    have ihcs := scan_no_match target cs h1.2.1 h2.1
    have ihrest := scan_no_match target rest h1.2.2 h2.2
    simp [scanItems, h1.1, ihcs, ihrest, excWrap, pyTruthy, dfsFolderIds]
  | .cons (Item.plain _ _) rest, h1, h2 => by
    simp only [itemsAllOk] at h1
    simp only [noTargetFile] at h2
    simpa only [scanItems, dfsFolderIds] using scan_no_match target rest h1 h2

/-- C9: when every listing in the finite tree succeeds and no file in it is
    named target, find_file terminates with the not-found result None, and
    its children-listing requests are exactly the start folder followed by
    every folder of the tree in depth-first preorder, each exactly once. -/
theorem C9_full_traversal (target fid : String) (cs : ItemList)
    (h1 : itemsAllOk cs = true) (h2 : noTargetFile target cs = true) :
    find_file target fid true cs = (Except.ok none, fid :: dfsFolderIds cs) := by
  simp [find_file, scan_no_match target cs h1 h2, excWrap]

/-- C9 witness: the quiet tree, searched from the folder root for target z. -/
theorem C9_full_traversal_wit :
    itemsAllOk quietTree = true ∧ noTargetFile "z" quietTree = true ∧
    find_file "z" "root" true quietTree = (Except.ok none, ["root", "fB", "fC"]) :=
  ⟨rfl, rfl, C9_full_traversal "z" "root" quietTree rfl rfl⟩

/-- C1 (amended): find_file scans the children of the given folder in listing
    order: an entry carrying the direct-download URL whose name equals target
    returns that entry's id immediately, with no listing request for later
    entries or siblings; a download-URL entry with another name is skipped;
    for a folder entry the recursive search runs, and a handle it yields is
    propagated immediately with no listing request for later siblings,
    provided its id is truthy (non-empty); a yielded handle whose id is the
    empty string is discarded and the scan continues with the later siblings;
    entries that are neither a matching file nor a folder are skipped. -/
theorem C1_search_order (target n i fid : String) (lok : Bool) (cs rest : ItemList) :
    (scanItems target (ItemList.cons (Item.file target i) rest) = (Except.ok (some i), []))
  ∧ (n ≠ target →
      scanItems target (ItemList.cons (Item.file n i) rest) = scanItems target rest)
  ∧ (∀ r : Option String,
      (find_file target fid lok cs).1 = Except.ok r → pyTruthy r = true →
      scanItems target (ItemList.cons (Item.folder n fid lok cs) rest)
        = (Except.ok r, (find_file target fid lok cs).2))
  ∧ ((find_file target fid lok cs).1 = Except.ok (some "") →
      scanItems target (ItemList.cons (Item.folder n fid lok cs) rest)
        = ((scanItems target rest).1,
           (find_file target fid lok cs).2 ++ (scanItems target rest).2))
  ∧ (scanItems target (ItemList.cons (Item.plain n i) rest) = scanItems target rest) := by
  refine ⟨?_, ?_, ?_, ?_, ?_⟩
  · simp [scanItems]
  · intro h; simp [scanItems, h]
  · intro r hr ht
    by_cases hl : lok
    · simp only [find_file, hl, if_true] at hr
      simp [scanItems, find_file, hl, hr, ht]
    · simp [find_file, hl] at hr
  · intro hr
    by_cases hl : lok
    · simp only [find_file, hl, if_true] at hr
      simp [scanItems, find_file, hl, hr, pyTruthy]
    · simp [find_file, hl] at hr
  · simp [scanItems]

/-- C1 witness: a folder whose recursive search yields the non-empty id x1
    propagates it immediately; the later sibling folder is never listed. -/
theorem C1_search_order_wit :
    scanItems "a" (itemsOf [Item.folder "Sub" "f1" true (itemsOf [Item.file "a" "x1"]),
                            Item.folder "Later" "f2" true (itemsOf [])])
      = (Except.ok (some "x1"), ["f1"]) :=
  (C1_search_order "a" "Sub" "x1" "f1" true (itemsOf [Item.file "a" "x1"])
      (itemsOf [Item.folder "Later" "f2" true (itemsOf [])])).2.2.1 (some "x1") rfl rfl

/-- C1 counterexample: with target a, the recursive call into folder F yields
    the handle some "" (the matching file's id is the empty string), yet the
    surrounding scan does not propagate it: the Python truthiness test drops
    it, the later sibling is visited, and its id x2 is returned instead. -/
theorem C1_search_order_cex :
    (find_file "a" "sub1" true (itemsOf [Item.file "a" ""])).1 = Except.ok (some "")
  ∧ scanItems "a" (itemsOf [Item.folder "F" "sub1" true (itemsOf [Item.file "a" ""]),
                            Item.file "a" "x2"])
      = (Except.ok (some "x2"), ["sub1"])
  ∧ some "x2" ≠ some "" :=
  ⟨rfl, rfl, by decide⟩

/-- C3: evaluating get_drive_id on a site whose drive listing has no entry
    named Documents: the code raises nothing, resolves the drive id to None,
    issues the root-children request for the literal drive id None, and
    returns the pair (None, None) instead of raising any error. -/
theorem C3_no_documents_returns :
    get_drive_id_run tC3 "Reports"
      = (Except.ok (none, none), [Request.listDrives, Request.listRootChildren "None"]) := rfl

/-- C4: with Documents present but the requested root folder absent (the
    locate stage yields NotFound), download_file does not report the
    not-found outcome: it issues a further children-listing request for the
    literal folder id None and raises the wrapped RuntimeError when that
    response is unparseable; no metadata request, no byte retrieval, and no
    local file write occur, but the claimed non-raising outcome is missed. -/
theorem C4_notfound_stage_raises :
    isErr (download_file_run tC4 "f.xlsx" "Reports").1 = true
  ∧ (download_file_run tC4 "f.xlsx" "Reports").2
      = [Request.listDrives, Request.listRootChildren "d1", Request.listFolderChildren "None"] :=
  ⟨rfl, rfl⟩

/-- C5: the authentication failure and the listing failure both reach the
    caller as the same exception class RuntimeError, so the taxonomy kinds
    are not distinguishable by exception type at the orchestrator boundary,
    while the healthy no-match run ends in the non-exceptional not-found
    outcome (the one distinction the code does make). -/
theorem C5_single_error_shape :
    excTypeOf (download_file_run t5a "f.xlsx" "Reports").1 = some "RuntimeError"
  ∧ excTypeOf (download_file_run t5b "f.xlsx" "Reports").1 = some "RuntimeError"
  ∧ (download_file_run t5c "f.xlsx" "Reports").1 = Except.ok Outcome.notFound :=
  ⟨rfl, rfl, rfl⟩

/-- C6: on the tree whose first folder has a failing children listing, the
    canonical find_file aborts the whole search with the wrapped error after
    listing only the root and the failing folder, while the spc_connector
    variant swallows the failure and returns the later sibling's id: a
    partial result instead of an abort. -/
theorem C6_listing_failure_abort :
    isErr (find_file "t.xlsx" "root" true brokenTree).1 = true
  ∧ (find_file "t.xlsx" "root" true brokenTree).2 = ["root", "fA"]
  ∧ find_file_spc "t.xlsx" true brokenTree = some "x9" :=
  ⟨rfl, rfl, rfl⟩

/-- C8 counterexample: two runs that differ only in the identity provider's
    error message produce identical raised errors of class RuntimeError, so
    download raises no distinguishable AuthError and the raised error does
    not include the underlying provider message. -/
theorem C8_auth_cex :
    t8a.msal.error_description ≠ t8b.msal.error_description
  ∧ download_file_run t8a "f.xlsx" "Reports" = download_file_run t8b "f.xlsx" "Reports"
  ∧ excTypeOf (download_file_run t8a "f.xlsx" "Reports").1 = some "RuntimeError" :=
  ⟨by decide, rfl, rfl⟩

/-- C8 (amended): whenever the identity-provider result carries no access
    token, download_file raises the uniform doubly wrapped RuntimeError,
    whose message quotes the missing access_token key rather than the
    provider message, and issues no listing request at all: no drive or
    folder listing call precedes successful token acquisition. -/
theorem C8_auth_before_listing (t : Transport) (tf fm : String)
    (h : t.msal.access_token = none) :
    download_file_run t tf fm
      = (Except.error (wrapExc (wrapExc (keyExc "access_token"))), []) := by
  simp [download_file_run, get_token, h]

/-- C8 witness: the amended statement at the concrete rejected run. -/
theorem C8_auth_before_listing_wit :
    t8a.msal.access_token = none
  ∧ download_file_run t8a "f.xlsx" "Reports"
      = (Except.error (wrapExc (wrapExc (keyExc "access_token"))), []) :=
  ⟨rfl, C8_auth_before_listing t8a "f.xlsx" "Reports" rfl⟩

end SPD
